import Mathlib

/-!
Shallow embedding of the Ayuma medical-RAG backend (src/backend) in Lean 4.

Python floats are modelled as exact rationals (all constants in the source are
decimal literals), Python dicts with a fixed key set as structures, optional
dict keys as `Option`, Python exceptions as `Except`/`Option` parameters at the
external-call boundary, and `datetime.now()` as an explicit `SimpleDate`
argument.  `sorted(..., key=..., reverse=True)` is modelled by a stable
descending insertion sort, which computes the same list as any stable sort.
-/

set_option linter.unusedVariables false

namespace Ayuma

/-! ## String helpers (Python `str.lower`, `in`, `str.split`) -/

/-- Python `s.lower()` (ASCII case mapping, which covers every string in the source). -/
def lowerStr (s : String) : String :=
  ⟨s.data.map Char.toLower⟩

/-- Python `s.upper()` (ASCII case mapping). -/
def upperStr (s : String) : String :=
  ⟨s.data.map Char.toUpper⟩

/-- Boolean substring test on character lists: does `pat` occur contiguously in the list? -/
def infixB (pat : List Char) : List Char → Bool
  | [] => pat.isEmpty
  | c :: rest => pat.isPrefixOf (c :: rest) || infixB pat rest

/-- Python `pat in hay` for strings. -/
def strContains (hay pat : String) : Bool :=
  infixB pat.data hay.data

/-- Helper for `splitWS`: accumulate the current word (reversed) while scanning. -/
def splitWSAux : List Char → List Char → List String
  | [], acc => if acc.isEmpty then [] else [⟨acc.reverse⟩]
  | c :: rest, acc =>
    if c.isWhitespace then
      (if acc.isEmpty then [] else [⟨acc.reverse⟩]) ++ splitWSAux rest []
    else splitWSAux rest (c :: acc)

/-- Python `s.split()` with no argument: split on whitespace runs, dropping empty pieces. -/
def splitWS (s : String) : List String :=
  splitWSAux s.data []

/-- Helper for `splitChar`. -/
def splitCharAux (sep : Char) : List Char → List Char → List String
  | [], acc => [⟨acc.reverse⟩]
  | c :: rest, acc =>
    if c = sep then (⟨acc.reverse⟩ : String) :: splitCharAux sep rest []
    else splitCharAux sep rest (c :: acc)

/-- Python `s.split(sep)` for a one-character separator (empty pieces kept). -/
def splitChar (s : String) (sep : Char) : List String :=
  splitCharAux sep s.data []

/-- Python `int(s)` restricted to non-negative all-digit strings (every other
shape raises and is `none`). -/
def digitsToNat? (s : String) : Option ℕ :=
  if s.data ≠ [] ∧ s.data.all Char.isDigit then
    some (s.data.foldl (fun n c => n * 10 + (c.toNat - 48)) 0)
  else none

/-- Python `s.strip()` (whitespace trim, as applied by `int`). -/
def trimWS (s : String) : String :=
  ⟨((s.data.dropWhile Char.isWhitespace).reverse.dropWhile Char.isWhitespace).reverse⟩

/-! ## Stable descending sort

Python's `sorted(xs, key=k, reverse=True)` returns the unique stable descending
ordering of `xs`: descending in `k`, with elements of equal key kept in input
order.  We realise it as an insertion sort that inserts each element after the
block of earlier elements whose key is ≥ its own. -/

/-- Insert `a` into a descending-sorted list, after all entries of key ≥ `key a`. -/
def insertDesc (key : α → ℚ) (a : α) : List α → List α
  | [] => [a]
  | b :: l => if key b ≤ key a then a :: b :: l else b :: insertDesc key a l

/-- Stable descending sort by `key` (model of `sorted(..., key=key, reverse=True)`). -/
def sortDesc (key : α → ℚ) : List α → List α
  | [] => []
  | b :: l => insertDesc key b (sortDesc key l)

theorem mem_insertDesc (key : α → ℚ) (a x : α) (l : List α) :
    x ∈ insertDesc key a l ↔ x = a ∨ x ∈ l := by
  induction l with
  | nil => simp [insertDesc]
  | cons b t ih =>
    by_cases hba : key b ≤ key a
    · simp [insertDesc, hba]
    · simp only [insertDesc, if_neg hba, List.mem_cons, ih]
      tauto

theorem mem_sortDesc (key : α → ℚ) (x : α) (l : List α) :
    x ∈ sortDesc key l ↔ x ∈ l := by
  induction l with
  | nil => simp [sortDesc]
  | cons b t ih => simp [sortDesc, mem_insertDesc, ih]

theorem perm_insertDesc (key : α → ℚ) (a : α) (l : List α) :
    List.Perm (insertDesc key a l) (a :: l) := by
  induction l with
  | nil => simp [insertDesc]
  | cons b t ih =>
    by_cases hba : key b ≤ key a
    · simp [insertDesc, hba]
    · rw [insertDesc, if_neg hba]
      exact (List.Perm.cons b ih).trans (List.Perm.swap a b t)

theorem perm_sortDesc (key : α → ℚ) (l : List α) :
    List.Perm (sortDesc key l) l := by
  induction l with
  | nil => simp [sortDesc]
  | cons b t ih =>
    exact ((perm_insertDesc key b (sortDesc key t)).trans (List.Perm.cons b ih))

theorem pairwise_insertDesc (key : α → ℚ) (a : α) (l : List α)
    (hl : List.Pairwise (fun x y => key y ≤ key x) l) :
    List.Pairwise (fun x y => key y ≤ key x) (insertDesc key a l) := by
  induction l with
  | nil => simp [insertDesc]
  | cons b t ih =>
    rcases List.pairwise_cons.mp hl with ⟨hb, ht⟩
    by_cases hba : key b ≤ key a
    · rw [insertDesc, if_pos hba]
      refine List.pairwise_cons.mpr ⟨?_, hl⟩
      intro y hy
      rcases List.mem_cons.mp hy with rfl | hyt
      · exact hba
      · exact le_trans (hb y hyt) hba
    · rw [insertDesc, if_neg hba]
      refine List.pairwise_cons.mpr ⟨?_, ih ht⟩
      intro y hy
      rcases (mem_insertDesc key a y t).mp hy with rfl | hyt
      · exact le_of_lt (lt_of_not_le hba)
      · exact hb y hyt

theorem pairwise_sortDesc (key : α → ℚ) (l : List α) :
    List.Pairwise (fun x y => key y ≤ key x) (sortDesc key l) := by
  induction l with
  | nil => simp [sortDesc]
  | cons b t ih => exact pairwise_insertDesc key b (sortDesc key t) ih

theorem filter_insertDesc (key : α → ℚ) (a : α) (l : List α) (q : ℚ) :
    (insertDesc key a l).filter (fun x => decide (key x = q)) =
      if key a = q then a :: l.filter (fun x => decide (key x = q))
      else l.filter (fun x => decide (key x = q)) := by
  induction l with
  | nil =>
    by_cases haq : key a = q <;> simp [insertDesc, List.filter, haq]
  | cons b t ih =>
    by_cases hba : key b ≤ key a
    · rw [insertDesc, if_pos hba]
      by_cases haq : key a = q <;> simp [List.filter_cons, haq]
    · have hab : key a < key b := lt_of_not_le hba
      rw [insertDesc, if_neg hba]
      by_cases hbq : key b = q
      · have haq : ¬ key a = q := by
          intro h; exact absurd (h.trans hbq.symm) (ne_of_lt hab)
        simp [List.filter_cons, hbq, haq, ih]
      · by_cases haq : key a = q <;>
          simp [List.filter_cons, hbq, haq, ih]

/-- Stability of `sortDesc`: elements of any fixed key keep their input order. -/
theorem filter_sortDesc (key : α → ℚ) (l : List α) (q : ℚ) :
    (sortDesc key l).filter (fun x => decide (key x = q)) =
      l.filter (fun x => decide (key x = q)) := by
  induction l with
  | nil => simp [sortDesc]
  | cons b t ih =>
    by_cases hbq : key b = q <;>
      simp [sortDesc, filter_insertDesc, List.filter_cons, hbq, ih]

/-! ## QueryRouter (`llm_coordinator.py`: `LLMCoordinator`) -/

/-- The `ModelType` enum of `llm_coordinator.py`. -/
inductive ModelType
  | GPT4_MEDICAL
  | GPT4_TURBO
  | CLAUDE3
  | CLINICAL_BERT
  | BIOBERT
  | PUBMEDBERT
deriving DecidableEq, Repr

/-- The `medical_keywords` list of `LLMCoordinator._extract_medical_terms`. -/
def medical_keywords : List String :=
  ["cancer", "tumor", "chemotherapy", "radiation", "surgery",
   "metastasis", "biopsy", "oncology", "immunotherapy",
   "targeted therapy", "clinical trial", "stage", "grade",
   "prognosis", "survival", "remission", "recurrence"]

/-- `LLMCoordinator._extract_medical_terms`: keywords occurring in the lower-cased text. -/
def extractMedicalTerms (text : String) : List String :=
  medical_keywords.filter (fun term => strContains (lowerStr text) term)

/-- The reasoning-trigger phrase list of `analyze_query_complexity`. -/
def reasoningTriggers : List String :=
  ["compare", "recommend", "best treatment", "first-line",
   "alternative", "prognosis", "guidelines"]

/-- The `QueryComplexity` pydantic model. -/
structure QueryComplexity where
  score : ℚ
  medical_specificity : ℚ
  entities : List String
  requires_reasoning : Bool
  context_length_needed : ℕ
deriving DecidableEq, Repr

/-- `LLMCoordinator.analyze_query_complexity`.
`specificity_score = len(medical_terms) / max(len(query.split()), 1)` and
`score = min(specificity_score * 1.5, 1.0)`. -/
def analyzeQueryComplexity (query : String) : QueryComplexity :=
  let medical_terms := extractMedicalTerms query
  let specificity_score : ℚ :=
    (medical_terms.length : ℚ) / (max (splitWS query).length 1 : ℕ)
  let reasoning_required :=
    reasoningTriggers.any (fun term => strContains (lowerStr query) term)
  { score := min (specificity_score * (3/2)) 1
    medical_specificity := specificity_score
    entities := medical_terms
    requires_reasoning := reasoning_required
    context_length_needed := if reasoning_required then 1000 else 500 }

/-- `LLMCoordinator.route_query`, reduced to the model choice (the dict it returns
also carries a reason string and the complexity record). -/
def routeQuery (query : String) : ModelType :=
  let complexity := analyzeQueryComplexity query
  if complexity.medical_specificity > 4/5 then
    if complexity.requires_reasoning then ModelType.GPT4_MEDICAL
    else ModelType.CLINICAL_BERT
  else if complexity.medical_specificity > 1/2 then ModelType.CLAUDE3
  else ModelType.GPT4_TURBO

/-! ## ModelGateway (`llm_coordinator.py`: `execute_query` and its fallbacks)

The real API calls (`openai` / `anthropic` / `transformers`) are external I/O;
they are modelled by an `Option ModelResponse` argument: `some r` is a
successful backend response, `none` is the backend raising inside the client
call (API unavailable), in which case each `_call_*` helper catches the
exception and returns `_mock_response`. -/

/-- The response dict shape `{content, model, tokens_used, cost}`. -/
structure ModelResponse where
  content : String
  model : String
  tokens_used : ℕ
  cost : ℚ
deriving DecidableEq, Repr

/-- `LLMCoordinator._fallback_query`: the fixed safety message with zero tokens and cost. -/
def fallbackQuery : ModelResponse :=
  { content := "I apologize, but I\x27m currently unable to process your medical query. Please consult with your healthcare provider for medical advice."
    model := "fallback"
    tokens_used := 0
    cost := 0 }

/-- `LLMCoordinator._generate_trial_response`. -/
def generateTrialResponse (query context : String) (key_terms : List String) : String :=
  let context_lower := lowerStr context
  let trial_info : List String :=
    (if strContains context_lower "clinical trial" then ["• Clinical trial options identified in medical guidelines"] else []) ++
    (if strContains context_lower "phase" then ["• Phase-specific trial recommendations available"] else []) ++
    (if strContains context_lower "her2" || strContains context_lower "herceptin" then ["• HER2-targeted therapy trials may be available"] else []) ++
    (if strContains context_lower "metastatic" || strContains context_lower "advanced" then ["• Advanced/metastatic cancer trials are a consideration"] else [])
  let specific_info :=
    if trial_info.isEmpty then "• Clinical trial options should be discussed with your oncologist"
    else String.intercalate "\n" trial_info
  "Based on your HER2-positive breast cancer status, clinical trials may offer additional treatment options beyond standard care. Here\x27s what the medical guidelines suggest:\n\n**Clinical Trial Considerations for HER2+ Breast Cancer:**\n\n**Eligibility Factors:**\n"
    ++ specific_info
    ++ "\n• HER2 amplification status (positive for targeted therapies)\n• Cancer stage and progression\n• Previous treatment history\n• Performance status and overall health\n\n**Potential Trial Categories:**\n• HER2-targeted therapies (beyond standard trastuzumab)\n• Immunotherapy combinations\n• Novel chemotherapy regimens\n• Maintenance therapy approaches\n\n**Next Steps:**\n• Discuss trial availability with your oncologist\n• Check ClinicalTrials.gov for HER2-positive breast cancer trials\n• Consider cancer centers with active research programs\n• Review eligibility criteria carefully\n\n**Important Considerations:**\n• Trials may require specific biomarker testing\n• Travel to trial sites may be necessary\n• Insurance coverage varies by trial and location\n• Standard treatment options should not be delayed while seeking trials\n\n*Please consult with your healthcare provider and a clinical trial specialist to identify trials that match your specific situation and medical history.*"

/-- `LLMCoordinator._generate_treatment_response`. -/
def generateTreatmentResponse (query context : String) (key_terms : List String) : String :=
  let context_lower := lowerStr context
  let treatment_info : List String :=
    (if strContains context_lower "her2" || strContains context_lower "trastuzumab" then ["• HER2-targeted therapy (trastuzumab) is standard of care"] else []) ++
    (if strContains context_lower "chemotherapy" then ["• Chemotherapy regimens are well-established"] else []) ++
    (if strContains context_lower "hormone" then ["• Hormone therapy may be indicated based on receptor status"] else []) ++
    (if strContains context_lower "stage" then ["• Treatment approach depends on cancer stage"] else [])
  let specific_treatments :=
    if treatment_info.isEmpty then "• Multimodal treatment approach recommended"
    else String.intercalate "\n" treatment_info
  "For HER2-positive breast cancer, the medical guidelines recommend a comprehensive treatment approach:\n\n**Standard Treatment Options:**\n\n**Targeted Therapy:**\n"
    ++ specific_treatments
    ++ "\n• Trastuzumab (Herceptin) - cornerstone of HER2+ treatment\n• May be combined with pertuzumab for enhanced efficacy\n• Typically given for 1 year duration\n\n**Chemotherapy:**\n• Anthracycline and taxane-based regimens\n• May be given before (neoadjuvant) or after (adjuvant) surgery\n• Duration typically 4-6 months\n\n**Surgery and Radiation:**\n• Breast-conserving surgery when possible\n• Radiation therapy usually indicated after lumpectomy\n• Axillary lymph node evaluation required\n\n**Additional Therapies:**\n• Hormone therapy if ER/PR positive\n• Bone-modifying agents if bone metastases present\n• Supportive care throughout treatment\n\n**Monitoring and Follow-up:**\n• Regular imaging and biomarker testing\n• Cardiac monitoring during HER2-targeted therapy\n• Long-term survivorship care planning\n\n*Treatment plans are highly individualized based on tumor characteristics, stage, and patient preferences. Please discuss all options with your multidisciplinary care team.*"

/-- `LLMCoordinator._generate_side_effect_response`. -/
def generateSideEffectResponse (query context : String) (key_terms : List String) : String :=
  "Chemotherapy side effects in breast cancer treatment can be managed effectively with modern supportive care:\n\n**Common Side Effects:**\n• Nausea and vomiting (managed with anti-emetics)\n• Fatigue (energy conservation strategies)\n• Hair loss (scalp cooling may help)\n• Neutropenia (growth factors available)\n• Neuropathy (dose adjustments possible)\n\n**HER2-Targeted Therapy Side Effects:**\n• Cardiac toxicity (regular heart monitoring required)\n• Infusion reactions (premedication protocols)\n• Fatigue and muscle/joint pain\n\n**Management Strategies:**\n• Prophylactic anti-nausea medications\n• Growth factor support for low blood counts\n• Cardiac monitoring every 3 months during trastuzumab\n• Dose adjustments based on toxicity\n\n*Side effect management is an important part of cancer care. Please discuss any side effects with your healthcare provider for personalized management strategies.*"

/-- `LLMCoordinator._generate_general_response`. -/
def generateGeneralResponse (query context : String) (key_terms : List String) : String :=
  let context_lower := lowerStr context
  if strContains context_lower "breast cancer" then
    "For breast cancer treatment, I recommend discussing the following with your healthcare provider:\n\n**Key Considerations:**\n• Cancer stage and grade\n• Hormone receptor status (ER/PR)\n• HER2 status (important for targeted therapies)\n• Overall health and comorbidities\n\n**Treatment Team:**\n• Medical oncologist\n• Surgical oncologist\n• Radiation oncologist\n• Patient navigator or coordinator\n\n**Decision Factors:**\n• Treatment goals (curative vs. palliative)\n• Quality of life considerations\n• Clinical trial availability\n• Support system and resources\n\n*Please consult with your oncology team for personalized treatment recommendations based on your specific medical situation.*"
  else
    "I understand you\x27re asking about: " ++ query ++ "\n\n**Next Steps:**\n• Discuss your concerns with your healthcare provider\n• Consider getting a second opinion if needed\n• Explore support resources and patient advocacy groups\n• Review treatment options with your care team\n\n*This information is for educational purposes. Please consult with qualified healthcare professionals for medical advice and treatment decisions.*"

/-- `LLMCoordinator._mock_response`: the mock knowledge-base answer each
`_call_*` helper substitutes when its API raises. -/
def mockResponse (query : String) (context : List String) : ModelResponse :=
  let query_lower := lowerStr query
  let context_text := String.intercalate " " context
  let key_terms := extractMedicalTerms query
  if strContains query_lower "clinical trial" || strContains query_lower "trial" then
    { content := generateTrialResponse query context_text key_terms
      model := "medical-knowledge-base", tokens_used := 450, cost := 3/1000 }
  else if strContains query_lower "side effect" && strContains query_lower "chemotherapy" then
    { content := generateSideEffectResponse query context_text key_terms
      model := "medical-knowledge-base", tokens_used := 400, cost := 3/1000 }
  else if ["treatment", "therapy", "breast cancer"].any (fun t => strContains query_lower t) then
    { content := generateTreatmentResponse query context_text key_terms
      model := "medical-knowledge-base", tokens_used := 500, cost := 3/1000 }
  else
    { content := generateGeneralResponse query context_text key_terms
      model := "medical-knowledge-base", tokens_used := 200, cost := 3/1000 }

/-- `LLMCoordinator._call_openai`: returns the API response, or `_mock_response`
when the API raises (caught inside the helper itself). -/
def callOpenai (apiResult : Option ModelResponse) (query : String) (context : List String) : ModelResponse :=
  match apiResult with
  | some r => r
  | none => mockResponse query context

/-- `LLMCoordinator._call_anthropic` (same failure shape as `_call_openai`). -/
def callAnthropic (apiResult : Option ModelResponse) (query : String) (context : List String) : ModelResponse :=
  match apiResult with
  | some r => r
  | none => mockResponse query context

/-- `LLMCoordinator._call_huggingface` (same failure shape as `_call_openai`). -/
def callHuggingface (apiResult : Option ModelResponse) (query : String) (context : List String) : ModelResponse :=
  match apiResult with
  | some r => r
  | none => mockResponse query context

/-- The `"client"` field of `_initialize_models` for each model. -/
def modelClient : ModelType → String
  | ModelType.GPT4_MEDICAL => "openai"
  | ModelType.GPT4_TURBO => "openai"
  | ModelType.CLAUDE3 => "anthropic"
  | ModelType.CLINICAL_BERT => "huggingface"
  | ModelType.BIOBERT => "huggingface"
  | ModelType.PUBMEDBERT => "huggingface"

/-- `LLMCoordinator.execute_query`: route, then dispatch on the routed model's client. -/
def executeQuery (apiResult : Option ModelResponse) (query : String) (context : List String) : ModelResponse :=
  let routed := routeQuery query
  if modelClient routed = "openai" then callOpenai apiResult query context
  else if modelClient routed = "anthropic" then callAnthropic apiResult query context
  else callHuggingface apiResult query context

/-! ## EntityExtractor (`medical_rag.py`: `extract_medical_entities`) -/

/-- The entity dict `{diseases, treatments, drugs, procedures, anatomy, biomarkers}`. -/
structure EntityBag where
  diseases : List String
  treatments : List String
  drugs : List String
  procedures : List String
  anatomy : List String
  biomarkers : List String
deriving DecidableEq, Repr

def disease_patterns : List String :=
  ["cancer", "carcinoma", "adenocarcinoma", "sarcoma", "lymphoma", "leukemia",
   "melanoma", "tumor", "neoplasm", "malignancy"]

def treatment_patterns : List String :=
  ["chemotherapy", "immunotherapy", "radiation", "surgery", "targeted therapy",
   "hormone therapy", "transplant", "biopsy"]

def drug_patterns : List String :=
  ["tamoxifen", "methotrexate", "paclitaxel", "doxorubicin", "trastuzumab",
   "pembrolizumab", "nivolumab", "ipilimumab"]

def procedure_patterns : List String :=
  ["biopsy", "surgery", "resection", "lumpectomy", "mastectomy", "radiation",
   "imaging", "scan", "mri", "ct scan", "pet scan"]

def anatomy_patterns : List String :=
  ["breast", "lung", "colon", "prostate", "liver", "brain", "lymph node",
   "bone", "skin", "blood"]

def biomarker_patterns : List String :=
  ["her2", "er positive", "pr positive", "egfr", "alk", "ros1", "braf",
   "pd-l1", "msi-h", "tmb high"]

/-- `MedicalRAGSystem.extract_medical_entities`: each pattern list is filtered by
substring occurrence in the lower-cased text; a pattern is appended at most once. -/
def extractMedicalEntities (text : String) : EntityBag :=
  let text_lower := lowerStr text
  { diseases := disease_patterns.filter (fun p => strContains text_lower p)
    treatments := treatment_patterns.filter (fun p => strContains text_lower p)
    drugs := drug_patterns.filter (fun p => strContains text_lower p)
    procedures := procedure_patterns.filter (fun p => strContains text_lower p)
    anatomy := anatomy_patterns.filter (fun p => strContains text_lower p)
    biomarkers := biomarker_patterns.filter (fun p => strContains text_lower p) }

/-! ## Metadata and document records

Python passes loosely-typed dicts; the fields below are exactly the metadata
keys that the evidence ranker and retriever read (all reads use `.get` with the
defaults shown in the source).  Keys whose *absence* matters downstream
(`sample_size`, `quality_score`, `recency_score`, `entities_str`) are `Option`;
string keys read with default `""` and flags read with default `False` are
plain fields whose default value stands for the missing key. -/

structure Metadata where
  study_type : String := ""
  evidence_level : String := ""
  institution : String := ""
  sample_size : Option ℕ := none
  randomized : Bool := false
  blinded : Bool := false
  double_blinded : Bool := false
  multicenter : Bool := false
  long_term_followup : Bool := false
  statistical_significance : Bool := false
  publication_date : String := ""
  quality_score : Option ℚ := none
  recency_score : Option ℚ := none
  entities_str : Option EntityBag := none
deriving DecidableEq, Repr

/-- A document as seen by `rank_documents` / a retrieval result as built by
`_retrieve_with_fallback`: the `document` text, its `metadata`, the optional
`entities` dict (evidence-ranker input), and the retrieval `score`. -/
structure RDoc where
  document : String := ""
  metadata : Metadata := {}
  entities : Option EntityBag := none
  score : ℚ := 0
deriving DecidableEq, Repr

/-! ## Dates (`datetime.strptime` / date arithmetic for the timeliness score)

Python compares `(datetime.now() - pub).days / 365.25` against year thresholds.
We model a date as a proleptic-Gregorian `(year, month, day)` triple, the day
difference through a day-number function, and the float quotient exactly in ℚ
(`365.25 = 1461/4`). -/

structure SimpleDate where
  year : ℕ
  month : ℕ
  day : ℕ
deriving DecidableEq, Repr

def isLeapYear (y : ℕ) : Bool :=
  (y % 4 == 0 && y % 100 != 0) || y % 400 == 0

def daysInMonth (y m : ℕ) : ℕ :=
  if m = 2 then (if isLeapYear y then 29 else 28)
  else if m = 4 ∨ m = 6 ∨ m = 9 ∨ m = 11 then 30
  else 31

/-- The `datetime` constructor's validity check (`MINYEAR = 1`, `MAXYEAR = 9999`). -/
def validDate (y m d : ℕ) : Bool :=
  decide (1 ≤ y ∧ y ≤ 9999 ∧ 1 ≤ m ∧ m ≤ 12 ∧ 1 ≤ d) && decide (d ≤ daysInMonth y m)

/-- Day count of a Gregorian date from a fixed epoch (standard civil-calendar
formula); differences of `dayNumber` equal `timedelta.days` between midnights. -/
def dayNumber (dt : SimpleDate) : ℕ :=
  let y := if dt.month ≤ 2 then dt.year - 1 else dt.year
  let mIdx := if 2 < dt.month then dt.month - 3 else dt.month + 9
  let doy := (153 * mIdx + 2) / 5 + (dt.day - 1)
  y * 365 + y / 4 - y / 100 + y / 400 + doy

/-- The date parsing of `_calculate_timeliness_score`:
`"-"`-containing strings go through `strptime("%Y-%m-%d")` when the first piece
has four characters and `strptime("%m-%d-%Y")` otherwise; anything else goes
through `int(...)` as a bare year; every parse failure is `none` (the Python
`except` then yields the neutral score). -/
def parsePubDate (s : String) : Option SimpleDate :=
  if s.data.contains '-' then
    match splitChar s '-' with
    | [a, b, c] =>
      if a.length = 4 then
        match digitsToNat? a, digitsToNat? b, digitsToNat? c with
        | some y, some m, some d =>
          if 1 ≤ b.length ∧ b.length ≤ 2 ∧ 1 ≤ c.length ∧ c.length ≤ 2 ∧ validDate y m d
          then some ⟨y, m, d⟩ else none
        | _, _, _ => none
      else
        match digitsToNat? a, digitsToNat? b, digitsToNat? c with
        | some m, some d, some y =>
          if 1 ≤ a.length ∧ a.length ≤ 2 ∧ 1 ≤ b.length ∧ b.length ≤ 2 ∧ c.length = 4 ∧ validDate y m d
          then some ⟨y, m, d⟩ else none
        | _, _, _ => none
    | _ => none
  else
    match digitsToNat? (trimWS s) with
    | some y => if 1 ≤ y ∧ y ≤ 9999 then some ⟨y, 1, 1⟩ else none
    | none => none

/-! ## EvidenceRanker (`evidence_ranker.py`: `EvidenceBasedRanker`) -/

/-- `_initialize_evidence_hierarchy` (a dict, modelled as an association list). -/
def evidence_hierarchy : List (String × ℚ) :=
  [("meta_analysis", 1), ("systematic_review", 19/20), ("rct", 9/10),
   ("randomized_controlled_trial", 9/10), ("cohort_study", 7/10),
   ("prospective_cohort", 3/4), ("retrospective_cohort", 13/20),
   ("case_control", 3/5), ("case_series", 1/2), ("expert_opinion", 2/5),
   ("guidelines", 17/20), ("consensus_statement", 4/5), ("animal_study", 1/5),
   ("in_vitro", 1/10), ("preclinical", 3/20)]

/-- `_initialize_institution_weights`. -/
def institution_weights : List (String × ℚ) :=
  [("ASCO", 1), ("NCCN", 19/20), ("ESMO", 9/10), ("EULAR", 9/10),
   ("FDA", 17/20), ("NIH", 4/5), ("EMA", 4/5), ("WHO", 3/4), ("CDC", 7/10),
   ("AHRQ", 3/4), ("COCHRANE", 19/20), ("UPTODATE", 3/5), ("PUBMED", 1/2),
   ("CLINICALTRIALS", 4/5)]

/-- `EvidenceBasedRanker._get_sample_size_boost` (`if not sample_size` also
catches `0`). -/
def getSampleSizeBoost : Option ℕ → ℚ
  | none => 0
  | some n =>
    if n = 0 then 0
    else if 10000 < n then 2/25
    else if 5000 < n then 3/50
    else if 1000 < n then 1/25
    else if 500 < n then 1/50
    else if 100 < n then 1/100
    else 0

/-- `EvidenceBasedRanker._get_methodology_boost`. -/
def getMethodologyBoost (md : Metadata) : ℚ :=
  (if md.randomized then 1/20 else 0) +
  (if md.blinded || md.double_blinded then 3/100 else 0) +
  (if md.multicenter then 1/50 else 0) +
  (if md.long_term_followup then 1/50 else 0) +
  (if md.statistical_significance then 1/100 else 0)

/-- `EvidenceBasedRanker._calculate_evidence_score`. -/
def calcEvidenceScore (md : Metadata) : ℚ :=
  let study_type := lowerStr md.study_type
  let evidence_level := lowerStr md.evidence_level
  let institution := upperStr md.institution
  let base_score := (evidence_hierarchy.lookup study_type).getD (3/10)
  let evidence_score := (evidence_hierarchy.lookup evidence_level).getD base_score
  let institution_boost := (institution_weights.lookup institution).getD 0
  let sample_size_boost := getSampleSizeBoost md.sample_size
  let methodology_boost := getMethodologyBoost md
  min (evidence_score + institution_boost + sample_size_boost + methodology_boost) 1

/-- `|set xs ∩ set ys|` for Python lists used as sets. -/
def interCard (xs ys : List String) : ℕ :=
  (xs.dedup.filter (fun x => ys.contains x)).length

/-- One category's contribution inside `_calculate_relevance_score`'s loop. -/
def catRelevance (qs ds : List String) : ℚ :=
  if qs ≠ [] ∧ ds ≠ [] then
    (if 0 < interCard qs ds then (interCard qs ds : ℚ) * (3/20) else 0)
  else 0

/-- The entity-matching loop of `_calculate_relevance_score` over the six
categories (skipped entirely when the document has no `entities` dict). -/
def entityRelevance (doc_entities : Option EntityBag) (query_entities : EntityBag) : ℚ :=
  match doc_entities with
  | none => 0
  | some de =>
    catRelevance query_entities.diseases de.diseases +
    catRelevance query_entities.treatments de.treatments +
    catRelevance query_entities.drugs de.drugs +
    catRelevance query_entities.procedures de.procedures +
    catRelevance query_entities.anatomy de.anatomy +
    catRelevance query_entities.biomarkers de.biomarkers

/-- The bag-of-words term of `_calculate_relevance_score`:
`len(doc_words ∩ query_words) / max(len(doc_words), 1)` over the word sets. -/
def wordOverlap (doc_text query_text : String) : ℚ :=
  let doc_words := (splitWS doc_text).dedup
  let query_words := (splitWS query_text).dedup
  ((doc_words.filter (fun w => query_words.contains w)).length : ℚ)
    / (max doc_words.length 1 : ℕ)

/-- `EvidenceBasedRanker._calculate_relevance_score`. -/
def calcRelevanceScore (d : RDoc) (query_entities : EntityBag) : ℚ :=
  let doc_text := lowerStr d.document
  let query_text := lowerStr (String.intercalate " "
    (query_entities.diseases ++ query_entities.treatments ++ query_entities.drugs ++
     query_entities.procedures ++ query_entities.anatomy ++ query_entities.biomarkers))
  let relevance :=
    if doc_text ≠ "" ∧ query_text ≠ "" then
      entityRelevance d.entities query_entities + wordOverlap doc_text query_text * (1/10)
    else entityRelevance d.entities query_entities
  min relevance 1

/-- `EvidenceBasedRanker._calculate_timeliness_score` (`now` is `datetime.now()`). -/
def calcTimelinessScore (now : SimpleDate) (md : Metadata) : ℚ :=
  if md.publication_date = "" then 1/2
  else
    match parsePubDate md.publication_date with
    | none => 1/2
    | some pub =>
      let years_diff : ℚ := (((dayNumber now : ℤ) - (dayNumber pub : ℤ) : ℤ) : ℚ) * 4 / 1461
      if years_diff ≤ 1 then 1
      else if years_diff ≤ 2 then 9/10
      else if years_diff ≤ 3 then 4/5
      else if years_diff ≤ 5 then 7/10
      else if years_diff ≤ 10 then 1/2
      else 3/10

/-- Spec-side definition (from the spec's words, for comparison with
`calcTimelinessScore`): the step function of publication-date age in years
(`days / 365.25`) relative to the current date, with an unparseable or missing
date scoring the neutral `0.5`. -/
def specTimelinessStep (now : SimpleDate) : Option SimpleDate → ℚ
  | none => 1/2
  | some pub =>
    let age : ℚ := (((dayNumber now : ℤ) - (dayNumber pub : ℤ) : ℤ) : ℚ) * 4 / 1461
    if age ≤ 1 then 1
    else if age ≤ 2 then 9/10
    else if age ≤ 3 then 4/5
    else if age ≤ 5 then 7/10
    else if age ≤ 10 then 1/2
    else 3/10

/-- `EvidenceBasedRanker._calculate_institution_score`. -/
def calcInstitutionScore (md : Metadata) : ℚ :=
  (institution_weights.lookup (upperStr md.institution)).getD (1/2)

/-- A ranked document: the input document together with the five scores that
`rank_documents` merges into the dict. -/
structure ScoredDoc where
  doc : RDoc
  evidence_score : ℚ
  relevance_score : ℚ
  timeliness_score : ℚ
  institution_score : ℚ
  final_score : ℚ
deriving DecidableEq, Repr

/-- The per-document body of `rank_documents`'s loop, including the fixed
convex combination `0.4/0.3/0.15/0.15`. -/
def scoreDocument (now : SimpleDate) (query_entities : EntityBag) (d : RDoc) : ScoredDoc :=
  let e := calcEvidenceScore d.metadata
  let r := calcRelevanceScore d query_entities
  let t := calcTimelinessScore now d.metadata
  let i := calcInstitutionScore d.metadata
  ⟨d, e, r, t, i, e * (2/5) + r * (3/10) + t * (3/20) + i * (3/20)⟩

/-- `EvidenceBasedRanker.rank_documents`: score each document, then
`sorted(..., key=final_score, reverse=True)` (stable). -/
def rankDocuments (now : SimpleDate) (documents : List RDoc) (query_entities : EntityBag) :
    List ScoredDoc :=
  sortDesc (fun s => s.final_score) (documents.map (scoreDocument now query_entities))

/-! ## Retriever (`medical_rag.py`: retrieval, re-ranking, quality filter)

The ChromaDB / LangChain vector-index calls are external I/O, modelled as an
`Except Unit` argument: `.error` is the call raising (caught by the source's
`except` blocks), `.ok` is the returned neighbor data. -/

/-- Caller-supplied metadata filters, passed through to the vector index and
never inspected by the retriever itself. -/
abbrev Filters := List (String × String)

/-- The slice of `collection.query`'s response that the retriever reads
(`documents[0]`, `metadatas[0]`, `distances[0]`). -/
structure VectorQueryResult where
  documents : List String
  metadatas : List Metadata
  distances : List ℚ
deriving Repr

/-- One category's term inside the re-ranking loop: `overlap * 0.1` whenever both
entity lists are non-empty. -/
def catOverlap (qs ds : List String) : ℚ :=
  if qs ≠ [] ∧ ds ≠ [] then (interCard qs ds : ℚ) * (1/10) else 0

/-- `MedicalRAGSystem._rerank_with_medical_entities`: add entity-overlap, quality
and recency boosts to each score, then sort descending by the updated score.
(`_rerank_with_medical_entities_langchain` is a verbatim duplicate of this
function in the source, so this definition also models the LangChain variant.) -/
def rerankWithMedicalEntities (query : String) (results : List RDoc) : List RDoc :=
  let query_entities := extractMedicalEntities query
  let updated := results.map (fun r =>
    let entity_overlap : ℚ :=
      match r.metadata.entities_str with
      | none => 0
      | some de =>
        catOverlap query_entities.diseases de.diseases +
        catOverlap query_entities.treatments de.treatments +
        catOverlap query_entities.drugs de.drugs +
        catOverlap query_entities.procedures de.procedures +
        catOverlap query_entities.anatomy de.anatomy +
        catOverlap query_entities.biomarkers de.biomarkers
    let quality_boost := (r.metadata.quality_score.getD 0) * (1/5)
    let recency_boost := (r.metadata.recency_score.getD 0) * (1/10)
    { r with score := r.score + entity_overlap + quality_boost + recency_boost })
  sortDesc (fun r => r.score) updated

/-- `MedicalRAGSystem._filter_by_evidence_quality`: keep candidates whose
`quality_score` (default 0 when the key is missing) is at least `0.4`, sorted
descending by score. -/
def filterByEvidenceQuality (results : List RDoc) : List RDoc :=
  sortDesc (fun r => r.score)
    (results.filter (fun r => decide ((2/5 : ℚ) ≤ r.metadata.quality_score.getD 0)))

/-- `MedicalRAGSystem._retrieve_with_fallback`: similarity `1 - distance`, then
re-rank, filter, and return the first `top_k`; any backend exception yields `[]`. -/
def retrieveWithFallback (backend : Except Unit VectorQueryResult) (query : String)
    (filters : Filters) (top_k : ℕ) : List RDoc :=
  match backend with
  | .error _ => []
  | .ok res =>
    let scored_results := (res.documents.zip (res.metadatas.zip res.distances)).map
      (fun x => { document := x.1, metadata := x.2.1, entities := none,
                  score := 1 - x.2.2 : RDoc })
    (filterByEvidenceQuality (rerankWithMedicalEntities query scored_results)).take top_k

/-- `MedicalRAGSystem._retrieve_with_langchain`: similarity `1 - score/2`, same
re-rank/filter pipeline; a failing LangChain call falls back to
`_retrieve_with_fallback`. -/
def retrieveWithLangchain (lcBackend : Except Unit (List (String × Metadata × ℚ)))
    (fbBackend : Except Unit VectorQueryResult) (query : String)
    (filters : Filters) (top_k : ℕ) : List RDoc :=
  match lcBackend with
  | .error _ => retrieveWithFallback fbBackend query filters top_k
  | .ok docs =>
    let results := docs.map
      (fun x => { document := x.1, metadata := x.2.1, entities := none,
                  score := 1 - x.2.2 / 2 : RDoc })
    (filterByEvidenceQuality (rerankWithMedicalEntities query results)).take top_k

/-- `MedicalRAGSystem.retrieve_relevant_context`: choose the LangChain or the
fallback path; its own `except` also returns `[]` (already covered by the inner
handlers, which never raise in this model). -/
def retrieveRelevantContext (use_langchain_store : Bool)
    (lcBackend : Except Unit (List (String × Metadata × ℚ)))
    (fbBackend : Except Unit VectorQueryResult) (query : String)
    (filters : Filters) (top_k : ℕ) : List RDoc :=
  if use_langchain_store then retrieveWithLangchain lcBackend fbBackend query filters top_k
  else retrieveWithFallback fbBackend query filters top_k

/-! ## LangChain ingestion metadata (`medical_rag.py`: `_ingest_with_langchain`) -/

/-- An input record of `ingest_medical_documents` (top-level dict keys read by
`_ingest_with_langchain`). -/
structure IngestDoc where
  content : String := ""
  metadata : Metadata := {}
  source : Option String := none
  institution : Option String := none
  evidence_level : Option String := none
  publication_date : Option String := none
  document_type : Option String := none
  cancer_type : Option String := none
  id : Option String := none

/-- The chunk metadata `_ingest_with_langchain` stores: the spread of the input
document's own metadata, overridden by institution / evidence_level /
publication_date / entities_str.  (The written keys `source`, `document_type`,
`cancer_type`, `document_id` are never read downstream and are not modelled.)
`quality_score` and `recency_score` are *not* written by this path — they pass
through from the input metadata unchanged — and the text splitter copies this
per-document metadata to every chunk. -/
def langchainChunkMetadata (doc : IngestDoc) : Metadata :=
  { doc.metadata with
    institution := doc.institution.getD "unknown"
    evidence_level := doc.evidence_level.getD "unknown"
    publication_date := doc.publication_date.getD ""
    entities_str := some (extractMedicalEntities doc.content) }

/-! ## Controller conversation history (`main_controller.py`: `process_medical_query`) -/

/-- The history update at the end of a successful `process_medical_query`:
append the new record, then `history = history[-100:]` when the length
exceeds 100. -/
def recordHistory (history : List α) (rec : α) : List α :=
  let h := history ++ [rec]
  if 100 < h.length then h.drop (h.length - 100) else h

/-- The history after a sequence of successful requests, starting empty. -/
def processHistory (recs : List α) : List α :=
  recs.foldl recordHistory []

/-! ## Helper lemmas -/

theorem recordHistory_length (h : List α) (rec : α) :
    (recordHistory h rec).length = min (h.length + 1) 100 := by
  simp only [recordHistory]
  split
  · simp_all
    omega
  · simp_all

theorem processHistory_eq_drop (l : List α) :
    processHistory l = l.drop (l.length - 100) := by
  induction l using List.reverseRecOn with
  | nil => rfl
  | append_singleton l a ih =>
    have step : processHistory (l ++ [a]) = recordHistory (processHistory l) a := by
      unfold processHistory
      rw [List.foldl_append, List.foldl_cons, List.foldl_nil]
    rw [step, ih]
    simp only [recordHistory]
    by_cases h : l.length ≤ 99
    · have h1 : l.length - 100 = 0 := by omega
      rw [h1, List.drop_zero]
      have h2 : ¬ 100 < (l ++ [a]).length := by simp; omega
      rw [if_neg h2]
      have h3 : (l ++ [a]).length - 100 = 0 := by simp; omega
      rw [h3, List.drop_zero]
    · have hk : (l.drop (l.length - 100)).length = 100 := by
        rw [List.length_drop]; omega
      have h2 : 100 < (l.drop (l.length - 100) ++ [a]).length := by
        simp [hk]
      rw [if_pos h2]
      have h3 : (l.drop (l.length - 100) ++ [a]).length - 100 = 1 := by
        simp [hk]
      rw [h3]
      rw [List.drop_append_eq_append_drop, List.drop_append_eq_append_drop,
        List.drop_drop, hk]
      simp [List.length_drop]
      have harith : l.length - 100 + 1 = l.length - 99 := by omega
      rw [harith]

theorem lookup_mem_values {l : List (String × ℚ)} {k : String} {v : ℚ}
    (h : l.lookup k = some v) : v ∈ l.map Prod.snd := by
  induction l with
  | nil => simp [List.lookup] at h
  | cons p t ih =>
    rw [List.lookup] at h
    split at h
    · cases h; simp
    · simp [ih h]

theorem evidence_hierarchy_values_bounds :
    ∀ v ∈ evidence_hierarchy.map Prod.snd, 0 ≤ v ∧ v ≤ 1 := by
  intro v hv
  simp [evidence_hierarchy] at hv
  rcases hv with rfl|rfl|rfl|rfl|rfl|rfl|rfl|rfl|rfl|rfl|rfl|rfl|rfl|rfl|rfl <;> norm_num

theorem institution_weights_values_bounds :
    ∀ v ∈ institution_weights.map Prod.snd, 1/2 ≤ v ∧ v ≤ 1 := by
  intro v hv
  simp [institution_weights] at hv
  rcases hv with rfl|rfl|rfl|rfl|rfl|rfl|rfl|rfl|rfl|rfl|rfl|rfl|rfl|rfl <;> norm_num

theorem hierGet_bounds (k : String) (d : ℚ) (h0 : 0 ≤ d) (h1 : d ≤ 1) :
    0 ≤ (evidence_hierarchy.lookup k).getD d ∧ (evidence_hierarchy.lookup k).getD d ≤ 1 := by
  cases hh : evidence_hierarchy.lookup k with
  | none => simpa using ⟨h0, h1⟩
  | some v =>
    simpa using evidence_hierarchy_values_bounds v (lookup_mem_values hh)

theorem instGet_bounds (k : String) (d : ℚ) (h0 : 0 ≤ d) (h1 : d ≤ 1) :
    0 ≤ (institution_weights.lookup k).getD d ∧ (institution_weights.lookup k).getD d ≤ 1 := by
  cases hh : institution_weights.lookup k with
  | none => simpa using ⟨h0, h1⟩
  | some v =>
    have hb := institution_weights_values_bounds v (lookup_mem_values hh)
    simp only [Option.getD_some]
    exact ⟨by linarith [hb.1], hb.2⟩

theorem getSampleSizeBoost_nonneg (s : Option ℕ) : 0 ≤ getSampleSizeBoost s := by
  cases s with
  | none => norm_num [getSampleSizeBoost]
  | some n =>
    rw [getSampleSizeBoost]
    split_ifs <;> norm_num

theorem getMethodologyBoost_nonneg (md : Metadata) : 0 ≤ getMethodologyBoost md := by
  unfold getMethodologyBoost
  split_ifs <;> norm_num

theorem calcEvidenceScore_bounds (md : Metadata) :
    0 ≤ calcEvidenceScore md ∧ calcEvidenceScore md ≤ 1 := by
  unfold calcEvidenceScore
  constructor
  · apply le_min _ zero_le_one
    have h1 := hierGet_bounds (lowerStr md.study_type) (3/10) (by norm_num) (by norm_num)
    have h2 := hierGet_bounds (lowerStr md.evidence_level)
      ((evidence_hierarchy.lookup (lowerStr md.study_type)).getD (3/10)) h1.1 h1.2
    have h3 := instGet_bounds (upperStr md.institution) 0 le_rfl zero_le_one
    have h4 := getSampleSizeBoost_nonneg md.sample_size
    have h5 := getMethodologyBoost_nonneg md
    linarith [h2.1, h3.1]
  · exact min_le_right _ _

theorem catRelevance_nonneg (qs ds : List String) : 0 ≤ catRelevance qs ds := by
  unfold catRelevance
  split_ifs <;> positivity

theorem entityRelevance_nonneg (oe : Option EntityBag) (qe : EntityBag) :
    0 ≤ entityRelevance oe qe := by
  cases oe with
  | none => norm_num [entityRelevance]
  | some de =>
    rw [entityRelevance]
    have h1 := catRelevance_nonneg qe.diseases de.diseases
    have h2 := catRelevance_nonneg qe.treatments de.treatments
    have h3 := catRelevance_nonneg qe.drugs de.drugs
    have h4 := catRelevance_nonneg qe.procedures de.procedures
    have h5 := catRelevance_nonneg qe.anatomy de.anatomy
    have h6 := catRelevance_nonneg qe.biomarkers de.biomarkers
    linarith

theorem wordOverlap_nonneg (a b : String) : 0 ≤ wordOverlap a b := by
  unfold wordOverlap
  positivity

theorem calcRelevanceScore_bounds (d : RDoc) (qe : EntityBag) :
    0 ≤ calcRelevanceScore d qe ∧ calcRelevanceScore d qe ≤ 1 := by
  unfold calcRelevanceScore
  constructor
  · apply le_min _ zero_le_one
    split_ifs
    · have h1 := entityRelevance_nonneg d.entities qe
      have h2 := wordOverlap_nonneg (lowerStr d.document)
        (lowerStr (String.intercalate " "
          (qe.diseases ++ qe.treatments ++ qe.drugs ++ qe.procedures ++ qe.anatomy ++ qe.biomarkers)))
      linarith
    · exact entityRelevance_nonneg d.entities qe
  · exact min_le_right _ _

theorem calcTimelinessScore_bounds (now : SimpleDate) (md : Metadata) :
    0 ≤ calcTimelinessScore now md ∧ calcTimelinessScore now md ≤ 1 := by
  unfold calcTimelinessScore
  split_ifs with h
  · norm_num
  · cases parsePubDate md.publication_date with
    | none => norm_num
    | some pub =>
      dsimp only
      split_ifs <;> norm_num

theorem calcInstitutionScore_bounds (md : Metadata) :
    0 ≤ calcInstitutionScore md ∧ calcInstitutionScore md ≤ 1 := by
  unfold calcInstitutionScore
  exact instGet_bounds _ (1/2) (by norm_num) (by norm_num)

theorem mem_filterByEvidenceQuality (results : List RDoc) (r : RDoc) :
    r ∈ filterByEvidenceQuality results ↔
      r ∈ results ∧ (2/5 : ℚ) ≤ r.metadata.quality_score.getD 0 := by
  unfold filterByEvidenceQuality
  rw [mem_sortDesc]
  simp [List.mem_filter]

theorem executeQuery_none (query : String) (context : List String) :
    executeQuery none query context = mockResponse query context := by
  simp only [executeQuery]
  split
  · rfl
  · split <;> rfl

/-! ## Claim theorems -/

/-- C8: the Controller's conversation history is an append-only FIFO buffer
bounded at 100 records — each successful request appends exactly one record
(length grows by one up to the cap), the oldest records are evicted first, and
after 105 sequential requests the history is exactly the most recent 100
records in order. -/
theorem conversationHistory_bounded_fifo (α : Type) :
    (∀ (h : List α) (rec : α), (recordHistory h rec).length = min (h.length + 1) 100) ∧
    (∀ recs : List α, processHistory recs = recs.drop (recs.length - 100)) ∧
    (processHistory (List.range 105)).length = 100 ∧
    processHistory (List.range 105) = (List.range 105).drop 5 := by
  refine ⟨fun h rec => recordHistory_length h rec,
          fun recs => processHistory_eq_drop recs, ?_, ?_⟩
  · rw [processHistory_eq_drop]; simp
  · rw [processHistory_eq_drop]; simp

/-- C9: `extract_medical_entities` is a pure case-insensitive substring matcher
over six fixed term lists, counting each term once; text without medical terms
yields all-empty categories, and the two concrete examples of the spec hold. -/
theorem extractEntities_spec :
    extractMedicalEntities "no medical content here" = ⟨[], [], [], [], [], []⟩ ∧
    extractMedicalEntities "breast cancer chemotherapy her2" =
      ⟨["cancer"], ["chemotherapy"], [], [], ["breast"], ["her2"]⟩ ∧
    extractMedicalEntities "BREAST Cancer CHEMOTHERAPY Her2" =
      extractMedicalEntities "breast cancer chemotherapy her2" ∧
    extractMedicalEntities "cancer cancer cancer" = extractMedicalEntities "cancer" ∧
    (∀ t : String,
      (extractMedicalEntities t).diseases.Nodup ∧
      (extractMedicalEntities t).treatments.Nodup ∧
      (extractMedicalEntities t).drugs.Nodup ∧
      (extractMedicalEntities t).procedures.Nodup ∧
      (extractMedicalEntities t).anatomy.Nodup ∧
      (extractMedicalEntities t).biomarkers.Nodup) := by
  refine ⟨by decide, by decide, by decide, by decide, fun t => ?_⟩
  refine ⟨List.Nodup.filter _ ?_, List.Nodup.filter _ ?_, List.Nodup.filter _ ?_,
          List.Nodup.filter _ ?_, List.Nodup.filter _ ?_, List.Nodup.filter _ ?_⟩ <;>
    decide

/-- C1 counterexample: the query
"What is the best treatment for HER2-positive breast cancer, compared to
standard chemotherapy?" does *not* route to the high-capability profile
(`GPT4_MEDICAL`): only 2 of its 13 words match medical keywords, so the routed
profile is the general default (`GPT4_TURBO`), even though the reasoning
trigger fires and even under the claimed `min(1.0, 1.5×ratio)` specificity
(which is `3/13 < 0.5`). -/
theorem routeQuery_example_routes_general :
    routeQuery "What is the best treatment for HER2-positive breast cancer, compared to standard chemotherapy?" = ModelType.GPT4_TURBO ∧
    ModelType.GPT4_TURBO ≠ ModelType.GPT4_MEDICAL ∧
    (analyzeQueryComplexity "What is the best treatment for HER2-positive breast cancer, compared to standard chemotherapy?").requires_reasoning = true ∧
    (analyzeQueryComplexity "What is the best treatment for HER2-positive breast cancer, compared to standard chemotherapy?").score = 3/13 ∧
    (analyzeQueryComplexity "What is the best treatment for HER2-positive breast cancer, compared to standard chemotherapy?").medical_specificity = 2/13 := by
  have hterms : extractMedicalTerms "What is the best treatment for HER2-positive breast cancer, compared to standard chemotherapy?" = ["cancer", "chemotherapy"] := by decide
  have hwords : (splitWS "What is the best treatment for HER2-positive breast cancer, compared to standard chemotherapy?").length = 13 := by decide
  have hreason : reasoningTriggers.any (fun term => strContains (lowerStr "What is the best treatment for HER2-positive breast cancer, compared to standard chemotherapy?") term) = true := by decide
  refine ⟨?_, by decide, ?_, ?_, ?_⟩
  · simp [routeQuery, analyzeQueryComplexity, hterms, hwords]
    norm_num
  · simp [analyzeQueryComplexity, hreason]
  · simp [analyzeQueryComplexity, hterms, hwords]
    norm_num
  · simp [analyzeQueryComplexity, hterms, hwords]

/-- C1 amended: the router computes `score = min(1.0, 1.5 × ratio)` but selects
the profile from the *raw* ratio `medical_specificity = |matched terms| /
|query words|`: `> 0.8` with reasoning → `GPT4_MEDICAL`, `> 0.8` without →
`CLINICAL_BERT`, `> 0.5` → `CLAUDE3`, else `GPT4_TURBO`.  Both example queries
("best treatment … compared …" and "hello") route to the general default
profile. -/
theorem routeQuery_policy :
    (∀ q : String,
      (analyzeQueryComplexity q).score =
        min ((analyzeQueryComplexity q).medical_specificity * (3/2)) 1 ∧
      (analyzeQueryComplexity q).medical_specificity =
        ((extractMedicalTerms q).length : ℚ) / (max (splitWS q).length 1 : ℕ) ∧
      (analyzeQueryComplexity q).requires_reasoning =
        reasoningTriggers.any (fun term => strContains (lowerStr q) term) ∧
      routeQuery q =
        (if 4/5 < (analyzeQueryComplexity q).medical_specificity then
           (if (analyzeQueryComplexity q).requires_reasoning then ModelType.GPT4_MEDICAL
            else ModelType.CLINICAL_BERT)
         else if 1/2 < (analyzeQueryComplexity q).medical_specificity then ModelType.CLAUDE3
         else ModelType.GPT4_TURBO)) ∧
    routeQuery "What is the best treatment for HER2-positive breast cancer, compared to standard chemotherapy?" = ModelType.GPT4_TURBO ∧
    routeQuery "hello" = ModelType.GPT4_TURBO := by
  refine ⟨fun q => ⟨rfl, rfl, rfl, rfl⟩, ?_, ?_⟩
  · have hterms : extractMedicalTerms "What is the best treatment for HER2-positive breast cancer, compared to standard chemotherapy?" = ["cancer", "chemotherapy"] := by decide
    have hwords : (splitWS "What is the best treatment for HER2-positive breast cancer, compared to standard chemotherapy?").length = 13 := by decide
    simp [routeQuery, analyzeQueryComplexity, hterms, hwords]
    norm_num
  · have hterms : extractMedicalTerms "hello" = [] := by decide
    simp [routeQuery, analyzeQueryComplexity, hterms]
    norm_num

/-- C4: the timeliness score is the step function of publication-date age in
years (`days / 365.25` relative to the current date): ≤1y→1.0, ≤2y→0.9,
≤3y→0.8, ≤5y→0.7, ≤10y→0.5, else 0.3; a missing or unparseable date scores
0.5; the parser accepts exactly `YYYY-MM-DD`, `MM-DD-YYYY` and bare-year
formats.  A document dated exactly one year before now (365 days at the
current date 2026-10-12) scores 1.0, one dated 11 years before scores 0.3, and
`"not-a-date"` scores 0.5. -/
theorem timelinessScore_step_function :
    (∀ (now : SimpleDate) (md : Metadata),
      calcTimelinessScore now md = specTimelinessStep now (parsePubDate md.publication_date)) ∧
    parsePubDate "2023-05-10" = some ⟨2023, 5, 10⟩ ∧
    parsePubDate "05-10-2023" = some ⟨2023, 5, 10⟩ ∧
    parsePubDate "2019" = some ⟨2019, 1, 1⟩ ∧
    parsePubDate "not-a-date" = none ∧
    parsePubDate "2023/05/10" = none ∧
    parsePubDate "" = none ∧
    calcTimelinessScore ⟨2026, 10, 12⟩ { publication_date := "2025-10-12" } = 1 ∧
    calcTimelinessScore ⟨2026, 10, 12⟩ { publication_date := "2015-10-12" } = 3/10 ∧
    calcTimelinessScore ⟨2026, 10, 12⟩ { publication_date := "not-a-date" } = 1/2 ∧
    calcTimelinessScore ⟨2026, 10, 12⟩ {} = 1/2 := by
  refine ⟨?_, by decide, by decide, by decide, by decide, by decide, by decide, ?_, ?_, ?_, ?_⟩
  · intro now md
    by_cases h : md.publication_date = ""
    · have hp : parsePubDate "" = none := by decide
      simp [calcTimelinessScore, specTimelinessStep, h, hp]
    · cases hp : parsePubDate md.publication_date with
      | none => simp [calcTimelinessScore, specTimelinessStep, h, hp]
      | some pub => simp [calcTimelinessScore, specTimelinessStep, h, hp]
  · have hp : parsePubDate "2025-10-12" = some ⟨2025, 10, 12⟩ := by decide
    have d1 : dayNumber ⟨2026, 10, 12⟩ = 740206 := by decide
    have d2 : dayNumber ⟨2025, 10, 12⟩ = 739841 := by decide
    simp [calcTimelinessScore, hp, d1, d2]
    norm_num
  · have hp : parsePubDate "2015-10-12" = some ⟨2015, 10, 12⟩ := by decide
    have d1 : dayNumber ⟨2026, 10, 12⟩ = 740206 := by decide
    have d2 : dayNumber ⟨2015, 10, 12⟩ = 736188 := by decide
    simp [calcTimelinessScore, hp, d1, d2]
    norm_num
  · have hp : parsePubDate "not-a-date" = none := by decide
    simp [calcTimelinessScore, hp]
  · have hp : parsePubDate "" = none := by decide
    simp [calcTimelinessScore, hp]

/-- C2 counterexample: when the backend fails inside the client call (API
unavailable), `execute_query` for the query "hello" returns the mock
knowledge-base response — 200 tokens and $0.003 of cost, not the fixed
safety-fallback answer with zero tokens and cost. -/
theorem executeQuery_failure_not_safety_fallback :
    (executeQuery none "hello" []).model = "medical-knowledge-base" ∧
    (executeQuery none "hello" []).tokens_used = 200 ∧
    (executeQuery none "hello" []).cost = 3/1000 ∧
    executeQuery none "hello" [] ≠ fallbackQuery := by
  rw [executeQuery_none]
  refine ⟨by decide, by decide, rfl, ?_⟩
  intro h
  have h2 : (mockResponse "hello" []).tokens_used = fallbackQuery.tokens_used :=
    congrArg ModelResponse.tokens_used h
  revert h2
  decide

/-- C2 amended: a backend failure inside a client call never propagates — it is
replaced by `_mock_response` (a degraded mock answer with nonzero tokens/cost);
the fixed safety-fallback answer directing the user to a clinician, with
`tokens_used = 0` and `cost = 0`, is `_fallback_query`, which `execute_query`
substitutes only when an exception escapes the client call itself. -/
theorem executeQuery_failure_mock_and_fallback :
    (∀ (q : String) (ctx : List String), executeQuery none q ctx = mockResponse q ctx) ∧
    fallbackQuery.tokens_used = 0 ∧
    fallbackQuery.cost = 0 ∧
    fallbackQuery.content = "I apologize, but I\x27m currently unable to process your medical query. Please consult with your healthcare provider for medical advice." := by
  exact ⟨fun q ctx => executeQuery_none q ctx, rfl, rfl, rfl⟩

/-- C3 counterexample: a Retriever result can leave `[0, 1]`.  With a backend
neighbor at distance 0 whose metadata carries `quality_score = 1.0` and
`recency_score = 0.5`, the re-ranking boosts push the returned score to
`1 + 0.2 + 0.05 = 1.25 > 1` — the re-ranked score is never clamped. -/
theorem retrieverScore_exceeds_unit :
    (retrieveWithFallback
        (Except.ok ⟨["doc"], [{ quality_score := some 1, recency_score := some (1/2) }], [0]⟩)
        "hello" [] 5).map (fun r => r.score) = [5/4] ∧
    ¬ ((5/4 : ℚ) ≤ 1) := by
  constructor
  · have hqe : extractMedicalEntities "hello" = ⟨[], [], [], [], [], []⟩ := by decide
    norm_num [retrieveWithFallback, rerankWithMedicalEntities, hqe, catOverlap,
      filterByEvidenceQuality, sortDesc, insertDesc, List.filter_cons]
  · norm_num

/-- C3 amended: every document in the EvidenceRanker output has its four
component scores in `[0, 1]` and `final_score` equal to the fixed convex
combination `0.4·evidence + 0.3·relevance + 0.15·timeliness +
0.15·institution`, hence also in `[0, 1]`.  (The Retriever's re-ranked scores
are *not* confined to `[0, 1]`; see the counterexample.) -/
theorem evidenceRanker_scores_in_unit_interval :
    ∀ (now : SimpleDate) (qe : EntityBag) (docs : List RDoc) (s : ScoredDoc),
      s ∈ rankDocuments now docs qe →
      (0 ≤ s.evidence_score ∧ s.evidence_score ≤ 1) ∧
      (0 ≤ s.relevance_score ∧ s.relevance_score ≤ 1) ∧
      (0 ≤ s.timeliness_score ∧ s.timeliness_score ≤ 1) ∧
      (0 ≤ s.institution_score ∧ s.institution_score ≤ 1) ∧
      s.final_score = s.evidence_score * (2/5) + s.relevance_score * (3/10) +
        s.timeliness_score * (3/20) + s.institution_score * (3/20) ∧
      (0 ≤ s.final_score ∧ s.final_score ≤ 1) := by
  intro now qe docs s hs
  rw [rankDocuments, mem_sortDesc] at hs
  obtain ⟨d, hd, rfl⟩ := List.mem_map.mp hs
  have he := calcEvidenceScore_bounds d.metadata
  have hr := calcRelevanceScore_bounds d qe
  have ht := calcTimelinessScore_bounds now d.metadata
  have hi := calcInstitutionScore_bounds d.metadata
  dsimp only [scoreDocument]
  refine ⟨he, hr, ht, hi, rfl, ?_, ?_⟩
  · have := mul_nonneg he.1 (by norm_num : (0:ℚ) ≤ 2/5)
    nlinarith [hr.1, ht.1, hi.1]
  · nlinarith [he.2, hr.2, ht.2, hi.2, he.1, hr.1, ht.1, hi.1]

/-- Witness for C3's amended theorem at a concrete input: the single default
document ranked at the current date has its final score in `[0, 1]`. -/
theorem evidenceRanker_scores_in_unit_interval_witness :
    0 ≤ (scoreDocument ⟨2026, 10, 12⟩ ⟨[], [], [], [], [], []⟩ {}).final_score ∧
    (scoreDocument ⟨2026, 10, 12⟩ ⟨[], [], [], [], [], []⟩ {}).final_score ≤ 1 :=
  (evidenceRanker_scores_in_unit_interval ⟨2026, 10, 12⟩ ⟨[], [], [], [], [], []⟩ [{}]
    (scoreDocument ⟨2026, 10, 12⟩ ⟨[], [], [], [], [], []⟩ {})
    (List.mem_singleton_self _)).2.2.2.2.2

/-- C5: a retrieval candidate whose metadata lacks `quality_score` is scored 0
by the quality filter and excluded; the LangChain ingestion path writes chunk
metadata without a `quality_score` key (it passes through from the input
document's metadata, so a document ingested without one yields chunks that are
excluded from every retrieval result). -/
theorem langchainChunks_filtered_out :
    (∀ (results : List RDoc) (r : RDoc),
      r.metadata.quality_score = none → r ∉ filterByEvidenceQuality results) ∧
    (∀ d : IngestDoc, (langchainChunkMetadata d).quality_score = d.metadata.quality_score) ∧
    (∀ (d : IngestDoc) (results : List RDoc) (r : RDoc),
      d.metadata.quality_score = none → r.metadata = langchainChunkMetadata d →
      r ∉ filterByEvidenceQuality results) := by
  have key : ∀ (results : List RDoc) (r : RDoc),
      r.metadata.quality_score = none → r ∉ filterByEvidenceQuality results := by
    intro results r hq hmem
    have h2 := ((mem_filterByEvidenceQuality results r).mp hmem).2
    rw [hq] at h2
    norm_num at h2
  refine ⟨key, fun d => rfl, ?_⟩
  intro d results r hd hr
  apply key
  rw [hr]
  show d.metadata.quality_score = none
  exact hd

/-- Witness for C5 at a concrete input: a chunk carrying the metadata the
LangChain path builds from a default input document is absent from the filter's
output. -/
theorem langchainChunks_filtered_out_witness :
    (langchainChunkMetadata {}).quality_score = none ∧
    (⟨"chunk", langchainChunkMetadata {}, none, 1⟩ : RDoc) ∉
      filterByEvidenceQuality [⟨"chunk", langchainChunkMetadata {}, none, 1⟩] :=
  ⟨langchainChunks_filtered_out.2.1 {},
   langchainChunks_filtered_out.2.2 {} _ _ rfl rfl⟩

/-- C6: the Retriever's quality filter keeps exactly the candidates whose
`quality_score` is at least 0.4; end to end, of two otherwise identical
candidates with `quality_score` 0.39 and 0.40, only the 0.40 one appears in the
results. -/
theorem qualityFilter_threshold :
    (∀ (results : List RDoc) (r : RDoc),
      r ∈ filterByEvidenceQuality results ↔
        r ∈ results ∧ (2/5 : ℚ) ≤ r.metadata.quality_score.getD 0) ∧
    (retrieveWithFallback
        (Except.ok ⟨["doc A", "doc B"],
                    [{ quality_score := some (39/100) }, { quality_score := some (2/5) }],
                    [0, 0]⟩)
        "hello" [] 5).map (fun r => r.metadata.quality_score) = [some (2/5)] := by
  constructor
  · exact mem_filterByEvidenceQuality
  · have hqe : extractMedicalEntities "hello" = ⟨[], [], [], [], [], []⟩ := by decide
    norm_num [retrieveWithFallback, rerankWithMedicalEntities, hqe, catOverlap,
      filterByEvidenceQuality, sortDesc, insertDesc, List.filter_cons]

/-- C7: the EvidenceRanker output is the stable descending sort of the scored
input documents by `final_score`: it is pairwise descending, documents of any
equal score keep their input order, and the output is a permutation of the
scored inputs — so ranking is deterministic given identical inputs. -/
theorem rankDocuments_sorted_stable :
    (∀ (now : SimpleDate) (docs : List RDoc) (qe : EntityBag),
      List.Pairwise (fun a b => b.final_score ≤ a.final_score) (rankDocuments now docs qe)) ∧
    (∀ (now : SimpleDate) (docs : List RDoc) (qe : EntityBag) (q : ℚ),
      (rankDocuments now docs qe).filter (fun s => decide (s.final_score = q)) =
        (docs.map (scoreDocument now qe)).filter (fun s => decide (s.final_score = q))) ∧
    (∀ (now : SimpleDate) (docs : List RDoc) (qe : EntityBag),
      List.Perm (rankDocuments now docs qe) (docs.map (scoreDocument now qe))) := by
  refine ⟨fun now docs qe => ?_, fun now docs qe q => ?_, fun now docs qe => ?_⟩
  · exact pairwise_sortDesc (fun (s : ScoredDoc) => s.final_score) _
  · exact filter_sortDesc (fun (s : ScoredDoc) => s.final_score) _ q
  · exact perm_sortDesc (fun (s : ScoredDoc) => s.final_score) _

/-- C10: a failing vector-index call makes the Retriever return the empty
result list — for every query, filters and `top_k`, on both retrieval paths and
at the `retrieve_relevant_context` entry point. -/
theorem retrievalFailure_returns_empty :
    (∀ (query : String) (filters : Filters) (top_k : ℕ),
      retrieveWithFallback (Except.error ()) query filters top_k = []) ∧
    (∀ (query : String) (filters : Filters) (top_k : ℕ),
      retrieveWithLangchain (Except.error ()) (Except.error ()) query filters top_k = []) ∧
    (∀ (useLC : Bool) (query : String) (filters : Filters) (top_k : ℕ),
      retrieveRelevantContext useLC (Except.error ()) (Except.error ()) query filters top_k = []) := by
  refine ⟨fun q f k => rfl, fun q f k => rfl, fun useLC q f k => ?_⟩
  cases useLC <;> rfl

end Ayuma






